import Mathlib

/-!
Shallow embedding of the offline-aware content loader of the DuaonAI
frontend (source: src/app/(tabs)/_layout.tsx).

The embedding covers the `fetchData` effect of `DuaScreen` (the automatic
load that runs on mount) and the retry button's `onPress` handler, together
with the AsyncStorage cache, the NetInfo connectivity probe and the two
network fetches (subcategory metadata, then the dua list) they perform.

Modelling conventions, each matching an observable of the TypeScript code:

* A value stored in AsyncStorage is a byte string; the loader only ever
  observes it through `JSON.parse`.  `StoredVal` models a stored string by
  what `JSON.parse` does on it: `jsonText v` is a string that parses to the
  JSON value `v`, `malformedText` is a (nonempty) string on which
  `JSON.parse` throws.  `JSON.stringify` is deterministic, so equality of
  `StoredVal` corresponds to byte equality of the stored strings.  (The
  empty string is falsy in JavaScript, so a cached empty string behaves
  exactly like an absent entry; it is modelled as absence.)
* Parsed JSON values are opaque to the loader (it never inspects their
  fields), so `JsonVal` wraps an opaque subcategory record or an opaque
  list of dua records.
* AsyncStorage is an association list keyed by string; `setItem` is
  modelled by prepending, which is observationally the same as overwrite
  because every read goes through `storeGet` (first match wins).
* `getItem` / `setItem` may throw; the environment lists the keys on which
  they do.  `fetch` either throws (network error, or a body on which
  `response.json()` throws — both reach the same catch with the same
  observable effect), returns a response with `ok = false`, or succeeds
  with a parsed body.
* The React state cells the loader writes (`subcategory`,
  `subcategoryDuas`, `error`, `loading`) form `ScreenState`.  `error` is
  `none` for both `null` and the falsy `''` the code uses; `subcategoryDuas`
  is `none` for the initial empty list.
* `LoadOutcome` is the spec's abstraction of what a single load surfaces:
  `Cached` when the state was set from the cache hit, `Fresh` when it was
  set from the network on a cache miss, `Unavailable m` when the load set
  the user-visible error message `m`, and `NoData` when the load finished
  with neither data nor error message.  `fetchData` returns it alongside
  the state and store, assigned at exactly the code point where the
  corresponding effect happens.
-/

namespace DuaonAI

/-- An opaque subcategory metadata record (the loader never inspects it). -/
structure Subcategory where
  payload : String
deriving DecidableEq

/-- An opaque dua content record (the loader never inspects it). -/
structure Dua where
  payload : String
deriving DecidableEq

/-- A parsed JSON value as the loader sees it: a subcategory record or an
array of dua records. -/
inductive JsonVal where
  | subRec (s : Subcategory)
  | duaArr (d : List Dua)
deriving DecidableEq

/-- A string stored in AsyncStorage, modelled by what `JSON.parse` does on
it.  `jsonText v`: parses to `v`; `malformedText`: `JSON.parse` throws. -/
inductive StoredVal where
  | jsonText (v : JsonVal)
  | malformedText
deriving DecidableEq

/-- `JSON.stringify` of a parsed value: deterministic, and `JSON.parse` of
the result restores the value. -/
def serialize (v : JsonVal) : StoredVal :=
  StoredVal.jsonText v

/-- `JSON.parse` on a stored string: `none` models a throw. -/
def parseStored : StoredVal → Option JsonVal
  | StoredVal.jsonText v => some v
  | StoredVal.malformedText => none

/-- The AsyncStorage contents: an association list from keys to stored
strings. -/
abbrev Store := List (String × StoredVal)

/-- `AsyncStorage.getItem` (ignoring thrown errors, which the environment
models separately): first matching key wins. -/
def storeGet : Store → String → Option StoredVal
  | [], _ => none
  | (k, v) :: rest, key => if k = key then some v else storeGet rest key

/-- `AsyncStorage.setItem`: overwrite the entry for `k`.  Prepending is
observationally the same because `storeGet` takes the first match. -/
def storeSet (s : Store) (k : String) (v : StoredVal) : Store :=
  (k, v) :: s

/-- Result of one `fetch` call: a thrown error (network failure, or a body
on which `response.json()` throws — same observable effect), a response
with `ok = false`, or a successfully parsed body. -/
inductive FetchResult where
  | netError
  | badStatus
  | success (body : JsonVal)
deriving DecidableEq

/-- The external world one load runs against: which storage keys throw on
read/write, the NetInfo connectivity snapshot, and the results of the
subcategory and dua fetches. -/
structure Env where
  getFails : List String
  setFails : List String
  isConnected : Bool
  subFetch : FetchResult
  duasFetch : FetchResult
deriving DecidableEq

/-- The React state cells `fetchData` and the retry handler write. -/
structure ScreenState where
  subcategory : Option JsonVal
  subcategoryDuas : Option JsonVal
  error : Option String
  loading : Bool
deriving DecidableEq

/-- State at mount: `useState(null)`, `useState([])`, `useState('')`,
`useState(true)`. -/
def initState : ScreenState :=
  { subcategory := none, subcategoryDuas := none, error := none, loading := true }

/-- The spec's view of what one load surfaces to the caller. -/
inductive LoadOutcome where
  | Fresh (sub duas : JsonVal)
  | Cached (sub duas : JsonVal)
  | Unavailable (reason : String)
  | NoData
deriving DecidableEq

/-- `setError('No subcategory ID found')`. -/
def noIdMsg : String := "No subcategory ID found"

/-- The offline error message of the automatic load. -/
def offlineMsg : String :=
  "No internet connection and no cached data available. Please connect to the internet and try again."

/-- The outer-catch error message of the automatic load. -/
def failMsg : String := "Failed to load duas. Please try again later."

/-- The no-cache error message of the retry handler. -/
def retryOfflineMsg : String := "No internet connection and no cached data available."

/-- The cache-error message of the retry handler. -/
def retryFailMsg : String := "Failed to load data. Please check your connection and try again."

/-- Cache key for the subcategory record used by the automatic load. -/
def subKey (id : String) : String := "subcategory_" ++ id ++ "_cache"

/-- Cache key for the dua list used by the automatic load. -/
def duasKey (id : String) : String := "duas_" ++ id ++ "_cache"

/-- Cache key for the subcategory record used by the retry handler. -/
def retrySubKey (id : String) : String := "subcategory_" ++ id

/-- Cache key for the dua list used by the retry handler. -/
def retryDuasKey (id : String) : String := "duas_" ++ id

/-- The cache-read phase of `fetchData`: `getItem` on both `_cache` keys,
then — only when both strings are present and truthy — `JSON.parse` on
each.  `Except.error ()` models a throw (of `getItem` or of `JSON.parse`),
which the outer `try` of `fetchData` catches; `Except.ok none` is a cache
miss; `Except.ok (some (d1, d2))` is a hit with both values parsed. -/
def readCache (id : String) (env : Env) (store : Store) :
    Except Unit (Option (JsonVal × JsonVal)) :=
  if subKey id ∈ env.getFails then Except.error ()
  else if duasKey id ∈ env.getFails then Except.error ()
  else
    match storeGet store (subKey id), storeGet store (duasKey id) with
    | some raw1, some raw2 =>
      match parseStored raw1, parseStored raw2 with
      | some d1, some d2 => Except.ok (some (d1, d2))
      | _, _ => Except.error ()
    | _, _ => Except.ok none

/-- The inner `try` of `fetchData` (entered only when `netInfo.isConnected`):
fetch the subcategory; if ok, fetch the duas; if ok, `setItem` both `_cache`
keys, then — only when `fromCache` is false — set the two state cells.  Any
throw (fetch, body parse, or `setItem`) is swallowed by the inner `catch`,
which changes nothing.  The third component reports the fresh bundle when
and only when the state was set from the network. -/
def networkAttempt (id : String) (env : Env) (fromCache : Bool)
    (st : ScreenState) (store : Store) :
    ScreenState × Store × Option (JsonVal × JsonVal) :=
  match env.subFetch with
  | FetchResult.netError => (st, store, none)
  | FetchResult.badStatus => (st, store, none)
  | FetchResult.success subBody =>
    match env.duasFetch with
    | FetchResult.netError => (st, store, none)
    | FetchResult.badStatus => (st, store, none)
    | FetchResult.success duasBody =>
      if subKey id ∈ env.setFails then (st, store, none)
      else
        let store1 := storeSet store (subKey id) (serialize subBody)
        if duasKey id ∈ env.setFails then (st, store1, none)
        else
          let store2 := storeSet store1 (duasKey id) (serialize duasBody)
          if fromCache then (st, store2, none)
          else
            ({ st with subcategory := some subBody, subcategoryDuas := some duasBody },
             store2, some (subBody, duasBody))

/-- The automatic load: the `fetchData` effect of `DuaScreen`, translated
statement by statement.  Returns the final React state, the final
AsyncStorage contents, and the surfaced `LoadOutcome` (assigned at the code
point where the corresponding `setState`/`setError` happens; `NoData` when
the load ends with neither). -/
def fetchData (id : String) (env : Env) (st : ScreenState) (store : Store) :
    ScreenState × Store × LoadOutcome :=
  let st := { st with loading := true, error := none }
  if id = "" then
    ({ st with error := some noIdMsg, loading := false }, store, LoadOutcome.Unavailable noIdMsg)
  else
    match readCache id env store with
    | Except.error _ =>
      ({ st with error := some failMsg, loading := false }, store,
       LoadOutcome.Unavailable failMsg)
    | Except.ok (some (d1, d2)) =>
      let st1 := { st with subcategory := some d1, subcategoryDuas := some d2 }
      if env.isConnected then
        let r := networkAttempt id env true st1 store
        ({ r.1 with loading := false }, r.2.1, LoadOutcome.Cached d1 d2)
      else
        ({ st1 with loading := false }, store, LoadOutcome.Cached d1 d2)
    | Except.ok none =>
      if env.isConnected then
        let r := networkAttempt id env false st store
        ({ r.1 with loading := false }, r.2.1,
         match r.2.2 with
         | some sd => LoadOutcome.Fresh sd.1 sd.2
         | none => LoadOutcome.NoData)
      else
        ({ st with error := some offlineMsg, loading := false }, store,
         LoadOutcome.Unavailable offlineMsg)

/-- The `catch (networkError)` block of the retry handler: read both
non-suffixed keys; if both present, `setSubcategory(JSON.parse(...))` then
`setSubcategoryDuas(JSON.parse(...))` (a throw of the second parse keeps
the first state update); if either is absent, set the retry offline
message; any throw sets the retry failure message. -/
def retryCatch (id : String) (env : Env) (st : ScreenState) (store : Store) :
    ScreenState × Store :=
  if retrySubKey id ∈ env.getFails then
    ({ st with error := some retryFailMsg, loading := false }, store)
  else if retryDuasKey id ∈ env.getFails then
    ({ st with error := some retryFailMsg, loading := false }, store)
  else
    match storeGet store (retrySubKey id), storeGet store (retryDuasKey id) with
    | some raw1, some raw2 =>
      match parseStored raw1 with
      | none => ({ st with error := some retryFailMsg, loading := false }, store)
      | some d1 =>
        let st1 := { st with subcategory := some d1 }
        match parseStored raw2 with
        | none => ({ st1 with error := some retryFailMsg, loading := false }, store)
        | some d2 =>
          ({ st1 with subcategoryDuas := some d2, loading := false }, store)
    | _, _ =>
      ({ st with error := some retryOfflineMsg, loading := false }, store)

/-- The retry button's `onPress` handler: fetch both endpoints, throwing on
any failure (including `ok = false`, unlike the automatic load), `setItem`
both non-suffixed keys, then set the state; every throw lands in
`retryCatch`, with any `setItem` writes made so far kept. -/
def retryLoad (id : String) (env : Env) (st : ScreenState) (store : Store) :
    ScreenState × Store :=
  let st := { st with loading := true, error := none }
  match env.subFetch with
  | FetchResult.netError => retryCatch id env st store
  | FetchResult.badStatus => retryCatch id env st store
  | FetchResult.success subBody =>
    match env.duasFetch with
    | FetchResult.netError => retryCatch id env st store
    | FetchResult.badStatus => retryCatch id env st store
    | FetchResult.success duasBody =>
      if retrySubKey id ∈ env.setFails then retryCatch id env st store
      else
        let store1 := storeSet store (retrySubKey id) (serialize subBody)
        if retryDuasKey id ∈ env.setFails then retryCatch id env st store1
        else
          let store2 := storeSet store1 (retryDuasKey id) (serialize duasBody)
          ({ st with subcategory := some subBody, subcategoryDuas := some duasBody,
                     loading := false }, store2)

/-- `fetchOk r` iff the fetch returned an ok response with a parseable body. -/
def fetchOk : FetchResult → Bool
  | FetchResult.success _ => true
  | _ => false

/-! ### Concrete fixtures used by witnesses and counterexamples -/

/-- A sample cached subcategory record. -/
def sampleSub : JsonVal := JsonVal.subRec { payload := "Morning Adhkar" }

/-- A sample cached dua list. -/
def sampleDuas : JsonVal := JsonVal.duaArr [{ payload := "dua one" }, { payload := "dua two" }]

/-- A different subcategory record, as served by the network. -/
def freshSub : JsonVal := JsonVal.subRec { payload := "Morning Adhkar v2" }

/-- A different dua list, as served by the network. -/
def freshDuas : JsonVal := JsonVal.duaArr [{ payload := "dua three" }]

/-- A store whose `_cache` entries for key `"x"` hold the sample bundle. -/
def hitStore : Store :=
  [(subKey "x", serialize sampleSub), (duasKey "x", serialize sampleDuas)]

/-- A store whose `_cache` entries for key `"x"` are present but malformed
(JSON.parse throws on them). -/
def badStore : Store :=
  [(subKey "x", StoredVal.malformedText), (duasKey "x", StoredVal.malformedText)]

/-- Offline environment with a working store. -/
def offlineEnv : Env :=
  { getFails := [], setFails := [], isConnected := false,
    subFetch := FetchResult.netError, duasFetch := FetchResult.netError }

/-- Online environment whose two fetches succeed with the fresh bundle. -/
def onlineEnv : Env :=
  { getFails := [], setFails := [], isConnected := true,
    subFetch := FetchResult.success freshSub, duasFetch := FetchResult.success freshDuas }

/-- An environment whose metadata fetch succeeds but whose items fetch
comes back with a non-ok status. -/
def itemsFailEnv : Env :=
  { getFails := [], setFails := [], isConnected := true,
    subFetch := FetchResult.success freshSub, duasFetch := FetchResult.badStatus }

/-- Environment like `onlineEnv` whose write to the subcategory `_cache`
key of `"x"` throws. -/
def writeFailEnv : Env :=
  { getFails := [], setFails := [subKey "x"], isConnected := true,
    subFetch := FetchResult.success freshSub, duasFetch := FetchResult.success freshDuas }

/-! ### Basic lemmas about the embedding -/

/-- `JSON.parse` restores what `JSON.stringify` wrote. -/
theorem parseStored_serialize (v : JsonVal) : parseStored (serialize v) = some v := rfl

/-- Reading back the key just written. -/
theorem storeGet_storeSet_self (s : Store) (k : String) (v : StoredVal) :
    storeGet (storeSet s k v) k = some v := by
  simp [storeGet, storeSet]

/-- Writing one key leaves every other key unchanged. -/
theorem storeGet_storeSet_ne (s : Store) (k k' : String) (v : StoredVal) (h : k ≠ k') :
    storeGet (storeSet s k v) k' = storeGet s k' := by
  simp [storeGet, storeSet, h]

/-- With `fromCache = true` the inner network block never touches the state
and never surfaces a fresh bundle, whatever the fetches and writes do. -/
theorem networkAttempt_fromCache (id : String) (env : Env) (st : ScreenState) (store : Store) :
    (networkAttempt id env true st store).1 = st ∧
    (networkAttempt id env true st store).2.2 = none := by
  unfold networkAttempt
  cases env.subFetch <;> try simp
  cases env.duasFetch <;> try simp
  split_ifs <;> simp

/-- If either fetch fails (throw or bad status), the inner network block is
a no-op: state, store and surfaced bundle are all unchanged. -/
theorem networkAttempt_failed (id : String) (env : Env) (fromCache : Bool)
    (st : ScreenState) (store : Store)
    (h : ¬(fetchOk env.subFetch ∧ fetchOk env.duasFetch)) :
    networkAttempt id env fromCache st store = (st, store, none) := by
  unfold networkAttempt
  cases hs : env.subFetch <;> try simp
  cases hd : env.duasFetch <;> try simp
  exact absurd ⟨by simp [fetchOk, hs], by simp [fetchOk, hd]⟩ h

/-- The inner network block writes only the two `_cache` keys of `id`. -/
theorem networkAttempt_frame (id : String) (env : Env) (fromCache : Bool)
    (st : ScreenState) (store : Store) (k : String)
    (h1 : k ≠ subKey id) (h2 : k ≠ duasKey id) :
    storeGet (networkAttempt id env fromCache st store).2.1 k = storeGet store k := by
  unfold networkAttempt
  cases env.subFetch <;> try simp
  cases env.duasFetch <;> try simp
  split
  case isTrue => simp
  case isFalse =>
    split
    case isTrue =>
      simp [storeGet_storeSet_ne _ _ _ _ (Ne.symm h1)]
    case isFalse =>
      split <;>
      simp [storeGet_storeSet_ne _ _ _ _ (Ne.symm h1),
            storeGet_storeSet_ne _ _ _ _ (Ne.symm h2)]

theorem subKey_length (id : String) : (subKey id).length = id.length + 18 := by
  unfold subKey
  rw [String.length_append, String.length_append]
  have h1 : ("subcategory_" : String).length = 12 := rfl
  have h2 : ("_cache" : String).length = 6 := rfl
  omega

theorem duasKey_length (id : String) : (duasKey id).length = id.length + 11 := by
  unfold duasKey
  rw [String.length_append, String.length_append]
  have h1 : ("duas_" : String).length = 5 := rfl
  have h2 : ("_cache" : String).length = 6 := rfl
  omega

theorem retrySubKey_length (id : String) : (retrySubKey id).length = id.length + 12 := by
  unfold retrySubKey
  rw [String.length_append]
  have h1 : ("subcategory_" : String).length = 12 := rfl
  omega

theorem retryDuasKey_length (id : String) : (retryDuasKey id).length = id.length + 5 := by
  unfold retryDuasKey
  rw [String.length_append]
  have h1 : ("duas_" : String).length = 5 := rfl
  omega

/-- The four key families of one id are pairwise distinct (their lengths
differ). -/
theorem keys_pairwise_ne (id : String) :
    subKey id ≠ duasKey id ∧ subKey id ≠ retrySubKey id ∧ subKey id ≠ retryDuasKey id ∧
    duasKey id ≠ retrySubKey id ∧ duasKey id ≠ retryDuasKey id ∧
    retrySubKey id ≠ retryDuasKey id := by
  refine ⟨?_, ?_, ?_, ?_, ?_, ?_⟩ <;>
    · intro h
      have hl := congrArg String.length h
      simp only [subKey_length, duasKey_length, retrySubKey_length, retryDuasKey_length] at hl
      omega

/-! ### Claims -/

/-- Helper: the cache-read phase on a present, parseable pair is a hit. -/
theorem readCache_hit (id : String) (env : Env) (store : Store)
    (raw1 raw2 : StoredVal) (d1 d2 : JsonVal)
    (hg1 : subKey id ∉ env.getFails) (hg2 : duasKey id ∉ env.getFails)
    (hs1 : storeGet store (subKey id) = some raw1)
    (hs2 : storeGet store (duasKey id) = some raw2)
    (hp1 : parseStored raw1 = some d1) (hp2 : parseStored raw2 = some d2) :
    readCache id env store = Except.ok (some (d1, d2)) := by
  unfold readCache
  rw [if_neg hg1, if_neg hg2, hs1, hs2]
  simp [hp1, hp2]

/-- Helper: on a cache hit (present and parseable pair), `fetchData`
surfaces the cached bundle with no error, whatever the network does. -/
theorem fetchData_cacheHit (id : String) (env : Env) (st : ScreenState)
    (store : Store) (raw1 raw2 : StoredVal) (d1 d2 : JsonVal)
    (hid : id ≠ "")
    (hg1 : subKey id ∉ env.getFails) (hg2 : duasKey id ∉ env.getFails)
    (hs1 : storeGet store (subKey id) = some raw1)
    (hs2 : storeGet store (duasKey id) = some raw2)
    (hp1 : parseStored raw1 = some d1) (hp2 : parseStored raw2 = some d2) :
    (fetchData id env st store).2.2 = LoadOutcome.Cached d1 d2 ∧
    (fetchData id env st store).1.subcategory = some d1 ∧
    (fetchData id env st store).1.subcategoryDuas = some d2 ∧
    (fetchData id env st store).1.error = none := by
  have hrc := readCache_hit id env store raw1 raw2 d1 d2 hg1 hg2 hs1 hs2 hp1 hp2
  unfold fetchData
  rw [if_neg hid, hrc]
  cases henv : env.isConnected
  case false => simp
  case true =>
    have hna := networkAttempt_fromCache id env
      { st with loading := true, error := none,
                subcategory := some d1, subcategoryDuas := some d2 } store
    simp only [hna.1]
    simp [hna.1]

/-- C1: if the cache entry for the key exists and deserializes (both the
subcategory and the duas values are present), `load` surfaces `Cached` with
exactly the stored bundle — for every connectivity value, every fetch
result and every write behaviour — and the outcome is never `Unavailable`:
the state holds the cached pair with no error message. -/
theorem C1_cache_hit_surfaces_cached (id : String) (env : Env) (st : ScreenState)
    (store : Store) (raw1 raw2 : StoredVal) (d1 d2 : JsonVal)
    (hid : id ≠ "")
    (hg1 : subKey id ∉ env.getFails) (hg2 : duasKey id ∉ env.getFails)
    (hs1 : storeGet store (subKey id) = some raw1)
    (hs2 : storeGet store (duasKey id) = some raw2)
    (hp1 : parseStored raw1 = some d1) (hp2 : parseStored raw2 = some d2) :
    (fetchData id env st store).2.2 = LoadOutcome.Cached d1 d2 ∧
    (fetchData id env st store).1.subcategory = some d1 ∧
    (fetchData id env st store).1.subcategoryDuas = some d2 ∧
    (fetchData id env st store).1.error = none :=
  fetchData_cacheHit id env st store raw1 raw2 d1 d2 hid hg1 hg2 hs1 hs2 hp1 hp2

/-- Witness for C1: cache hit for key `"x"`, network online and serving a
different bundle; the outcome is still the cached bundle. -/
theorem C1_witness :
    (fetchData "x" onlineEnv initState hitStore).2.2 = LoadOutcome.Cached sampleSub sampleDuas ∧
    (fetchData "x" onlineEnv initState hitStore).1.subcategory = some sampleSub ∧
    (fetchData "x" onlineEnv initState hitStore).1.subcategoryDuas = some sampleDuas ∧
    (fetchData "x" onlineEnv initState hitStore).1.error = none :=
  C1_cache_hit_surfaces_cached "x" onlineEnv initState hitStore
    (serialize sampleSub) (serialize sampleDuas) sampleSub sampleDuas
    (by decide) (by decide) (by decide) (by decide) (by decide) rfl rfl

/-- Helper: the cache-read phase on two absent entries is a miss. -/
theorem readCache_miss (id : String) (env : Env) (store : Store)
    (hg1 : subKey id ∉ env.getFails) (hg2 : duasKey id ∉ env.getFails)
    (hm1 : storeGet store (subKey id) = none)
    (hm2 : storeGet store (duasKey id) = none) :
    readCache id env store = Except.ok none := by
  unfold readCache
  rw [if_neg hg1, if_neg hg2, hm1, hm2]

/-- Helper: when both fetches succeed and both writes go through, the inner
network block writes the serialized bundle under both `_cache` keys, and —
exactly when the load did not come from cache — sets the state and surfaces
the fresh bundle. -/
theorem networkAttempt_success (id : String) (env : Env) (fromCache : Bool)
    (st : ScreenState) (store : Store) (b1 b2 : JsonVal)
    (hsub : env.subFetch = FetchResult.success b1)
    (hduas : env.duasFetch = FetchResult.success b2)
    (hw1 : subKey id ∉ env.setFails) (hw2 : duasKey id ∉ env.setFails) :
    (networkAttempt id env fromCache st store).2.1 =
      storeSet (storeSet store (subKey id) (serialize b1)) (duasKey id) (serialize b2) ∧
    (networkAttempt id env fromCache st store).1 =
      (if fromCache then st
       else { st with subcategory := some b1, subcategoryDuas := some b2 }) ∧
    (networkAttempt id env fromCache st store).2.2 =
      (if fromCache then none else some (b1, b2)) := by
  unfold networkAttempt
  rw [hsub, hduas]
  cases fromCache <;> simp [hw1, hw2]

/-- Helper: cache miss, connected, both fetches succeed, both writes go
through: the load surfaces `Fresh` with the fetched bundle and the final
store holds its serialization under both `_cache` keys. -/
theorem fetchData_miss_success (id : String) (env : Env) (st : ScreenState)
    (store : Store) (b1 b2 : JsonVal)
    (hid : id ≠ "")
    (hrc : readCache id env store = Except.ok none)
    (hconn : env.isConnected = true)
    (hsub : env.subFetch = FetchResult.success b1)
    (hduas : env.duasFetch = FetchResult.success b2)
    (hw1 : subKey id ∉ env.setFails) (hw2 : duasKey id ∉ env.setFails) :
    (fetchData id env st store).2.2 = LoadOutcome.Fresh b1 b2 ∧
    (fetchData id env st store).1.subcategory = some b1 ∧
    (fetchData id env st store).1.subcategoryDuas = some b2 ∧
    (fetchData id env st store).1.error = none ∧
    (fetchData id env st store).2.1 =
      storeSet (storeSet store (subKey id) (serialize b1)) (duasKey id) (serialize b2) := by
  have hna := networkAttempt_success id env false
    { st with loading := true, error := none } store b1 b2 hsub hduas hw1 hw2
  unfold fetchData
  rw [if_neg hid, hrc, hconn]
  simp only [hna.1, hna.2.1, hna.2.2]
  simp

/-- C2: on a cache miss with connectivity and both fetches succeeding (with
a functioning store), the load surfaces `Fresh` with the fetched bundle,
and a second load of the same key against the resulting store with
connectivity disabled surfaces `Cached` with the same bundle content. -/
theorem C2_fresh_then_cached (id : String) (env env2 : Env) (st st2 : ScreenState)
    (store : Store) (b1 b2 : JsonVal)
    (hid : id ≠ "")
    (hg1 : subKey id ∉ env.getFails) (hg2 : duasKey id ∉ env.getFails)
    (hm1 : storeGet store (subKey id) = none)
    (hm2 : storeGet store (duasKey id) = none)
    (hconn : env.isConnected = true)
    (hsub : env.subFetch = FetchResult.success b1)
    (hduas : env.duasFetch = FetchResult.success b2)
    (hw1 : subKey id ∉ env.setFails) (hw2 : duasKey id ∉ env.setFails)
    (hg1b : subKey id ∉ env2.getFails) (hg2b : duasKey id ∉ env2.getFails)
    (hconn2 : env2.isConnected = false) :
    (fetchData id env st store).2.2 = LoadOutcome.Fresh b1 b2 ∧
    (fetchData id env st store).1.subcategory = some b1 ∧
    (fetchData id env st store).1.subcategoryDuas = some b2 ∧
    (fetchData id env2 st2 (fetchData id env st store).2.1).2.2 =
      LoadOutcome.Cached b1 b2 ∧
    (fetchData id env2 st2 (fetchData id env st store).2.1).1.subcategory = some b1 ∧
    (fetchData id env2 st2 (fetchData id env st store).2.1).1.subcategoryDuas = some b2 := by
  obtain ⟨ho, hsu, hdu, herr, hstore⟩ :=
    fetchData_miss_success id env st store b1 b2 hid
      (readCache_miss id env store hg1 hg2 hm1 hm2) hconn hsub hduas hw1 hw2
  refine ⟨ho, hsu, hdu, ?_, ?_, ?_⟩ <;>
  · have hkne := (keys_pairwise_ne id).1
    have hs1 : storeGet (fetchData id env st store).2.1 (subKey id) =
        some (serialize b1) := by
      rw [hstore, storeGet_storeSet_ne _ _ _ _ (Ne.symm hkne), storeGet_storeSet_self]
    have hs2 : storeGet (fetchData id env st store).2.1 (duasKey id) =
        some (serialize b2) := by
      rw [hstore, storeGet_storeSet_self]
    have := fetchData_cacheHit id env2 st2 (fetchData id env st store).2.1
      (serialize b1) (serialize b2) b1 b2 hid hg1b hg2b hs1 hs2 rfl rfl
    tauto

/-- Witness for C2: key `"x"`, empty store, online fetch succeeding, then a
second load offline. -/
theorem C2_witness :
    (fetchData "x" onlineEnv initState []).2.2 = LoadOutcome.Fresh freshSub freshDuas ∧
    (fetchData "x" onlineEnv initState []).1.subcategory = some freshSub ∧
    (fetchData "x" onlineEnv initState []).1.subcategoryDuas = some freshDuas ∧
    (fetchData "x" offlineEnv initState (fetchData "x" onlineEnv initState []).2.1).2.2 =
      LoadOutcome.Cached freshSub freshDuas ∧
    (fetchData "x" offlineEnv initState
      (fetchData "x" onlineEnv initState []).2.1).1.subcategory = some freshSub ∧
    (fetchData "x" offlineEnv initState
      (fetchData "x" onlineEnv initState []).2.1).1.subcategoryDuas = some freshDuas :=
  C2_fresh_then_cached "x" onlineEnv offlineEnv initState initState [] freshSub freshDuas
    (by decide) (by decide) (by decide) rfl rfl rfl rfl rfl
    (by decide) (by decide) (by decide) (by decide) rfl

/-- Helper: the inner network block never touches the `error` state cell. -/
theorem networkAttempt_error (id : String) (env : Env) (fromCache : Bool)
    (st : ScreenState) (store : Store) :
    (networkAttempt id env fromCache st store).1.error = st.error := by
  unfold networkAttempt
  cases env.subFetch <;> try simp
  cases env.duasFetch <;> try simp
  split_ifs <;> simp

/-- Helper: offline with no cache entry: the load surfaces `Unavailable`
with the offline message and leaves the store unchanged. -/
theorem fetchData_offline_miss (id : String) (env : Env) (st : ScreenState)
    (store : Store)
    (hid : id ≠ "")
    (hrc : readCache id env store = Except.ok none)
    (hconn : env.isConnected = false) :
    (fetchData id env st store).2.2 = LoadOutcome.Unavailable offlineMsg ∧
    (fetchData id env st store).1.error = some offlineMsg ∧
    (fetchData id env st store).2.1 = store := by
  unfold fetchData
  rw [if_neg hid, hrc, hconn]
  simp

/-- Helper: every value the `error` cell can hold after an automatic load:
unset, the offline message, the outer-catch message, or the missing-id
message. -/
theorem fetchData_error_cases (id : String) (env : Env) (st : ScreenState)
    (store : Store) :
    (fetchData id env st store).1.error = none ∨
    (fetchData id env st store).1.error = some offlineMsg ∨
    (fetchData id env st store).1.error = some failMsg ∨
    (fetchData id env st store).1.error = some noIdMsg := by
  unfold fetchData
  split
  case isTrue => simp
  case isFalse =>
    cases hrc : readCache id env store with
    | error e => simp
    | ok o =>
      rcases o with _ | ⟨d1, d2⟩
      · cases hconn : env.isConnected
        case false => simp
        case true => simp [networkAttempt_error]
      · cases hconn : env.isConnected
        case false => simp
        case true => simp [networkAttempt_error]

/-- C3 (amended): offline with no cache entry (and a cache read that does
not throw), the load surfaces `Unavailable` with the offline message; but
this is not the only user-visible error outcome — the complete list of
error messages the load can set is: the offline message, the outer-catch
message `failMsg`, and the missing-id message `noIdMsg`. -/
theorem C3_offline_miss_unavailable :
    (∀ (id : String) (env : Env) (st : ScreenState) (store : Store),
      id ≠ "" →
      subKey id ∉ env.getFails → duasKey id ∉ env.getFails →
      storeGet store (subKey id) = none → storeGet store (duasKey id) = none →
      env.isConnected = false →
      (fetchData id env st store).2.2 = LoadOutcome.Unavailable offlineMsg ∧
      (fetchData id env st store).1.error = some offlineMsg) ∧
    (∀ (id : String) (env : Env) (st : ScreenState) (store : Store),
      (fetchData id env st store).1.error = none ∨
      (fetchData id env st store).1.error = some offlineMsg ∨
      (fetchData id env st store).1.error = some failMsg ∨
      (fetchData id env st store).1.error = some noIdMsg) :=
  ⟨fun id env st store hid hg1 hg2 hm1 hm2 hconn =>
    ⟨(fetchData_offline_miss id env st store hid
        (readCache_miss id env store hg1 hg2 hm1 hm2) hconn).1,
     (fetchData_offline_miss id env st store hid
        (readCache_miss id env store hg1 hg2 hm1 hm2) hconn).2.1⟩,
   fetchData_error_cases⟩

/-- Witness for C3: key `"x"`, empty store, offline. -/
theorem C3_witness :
    (fetchData "x" offlineEnv initState []).2.2 = LoadOutcome.Unavailable offlineMsg ∧
    (fetchData "x" offlineEnv initState []).1.error = some offlineMsg :=
  C3_offline_miss_unavailable.1 "x" offlineEnv initState []
    (by decide) (by decide) (by decide) rfl rfl rfl

/-- Counterexample for C3 as stated: the offline message is not the only
user-visible error outcome of the load — a malformed cache entry makes the
load end with the outer-catch message, which differs from it. -/
theorem C3_counterexample :
    (fetchData "x" offlineEnv initState badStore).1.error = some failMsg ∧
    (fetchData "x" offlineEnv initState badStore).2.2 = LoadOutcome.Unavailable failMsg ∧
    failMsg ≠ offlineMsg :=
  ⟨rfl, rfl, by decide⟩

/-- Helper: whenever the automatic load reaches the network (cache read did
not throw, device connected) and both fetches succeed with a functioning
store, the final store holds the serialized fetched bundle under both
`_cache` keys, and the surfaced state never shows anything newer than what
was persisted. -/
theorem fetchData_success_persists (id : String) (env : Env) (st : ScreenState)
    (store : Store) (b1 b2 : JsonVal) (r : Option (JsonVal × JsonVal))
    (hid : id ≠ "")
    (hrc : readCache id env store = Except.ok r)
    (hconn : env.isConnected = true)
    (hsub : env.subFetch = FetchResult.success b1)
    (hduas : env.duasFetch = FetchResult.success b2)
    (hw1 : subKey id ∉ env.setFails) (hw2 : duasKey id ∉ env.setFails) :
    storeGet (fetchData id env st store).2.1 (subKey id) = some (serialize b1) ∧
    storeGet (fetchData id env st store).2.1 (duasKey id) = some (serialize b2) := by
  have hne := Ne.symm (keys_pairwise_ne id).1
  unfold fetchData
  rw [if_neg hid, hrc]
  rcases r with _ | ⟨d1, d2⟩
  · have hna := networkAttempt_success id env false
      { st with loading := true, error := none } store b1 b2 hsub hduas hw1 hw2
    simp only [hconn, if_true, hna.1]
    rw [storeGet_storeSet_ne _ _ _ _ hne, storeGet_storeSet_self, storeGet_storeSet_self]
    exact ⟨rfl, rfl⟩
  · have hna := networkAttempt_success id env true
      { st with loading := true, error := none,
                subcategory := some d1, subcategoryDuas := some d2 } store b1 b2
      hsub hduas hw1 hw2
    simp only [hconn, if_true, hna.1]
    rw [storeGet_storeSet_ne _ _ _ _ hne, storeGet_storeSet_self, storeGet_storeSet_self]
    exact ⟨rfl, rfl⟩

/-- Helper: the retry handler, when both fetches succeed and both writes go
through, persists the serialized bundle under both non-suffixed keys and
then surfaces exactly that bundle. -/
theorem retryLoad_success (id : String) (env : Env) (st : ScreenState)
    (store : Store) (b1 b2 : JsonVal)
    (hsub : env.subFetch = FetchResult.success b1)
    (hduas : env.duasFetch = FetchResult.success b2)
    (hw1 : retrySubKey id ∉ env.setFails) (hw2 : retryDuasKey id ∉ env.setFails) :
    storeGet (retryLoad id env st store).2 (retrySubKey id) = some (serialize b1) ∧
    storeGet (retryLoad id env st store).2 (retryDuasKey id) = some (serialize b2) ∧
    (retryLoad id env st store).1.subcategory = some b1 ∧
    (retryLoad id env st store).1.subcategoryDuas = some b2 ∧
    (retryLoad id env st store).1.error = none := by
  have hne := Ne.symm (keys_pairwise_ne id).2.2.2.2.2
  unfold retryLoad
  rw [hsub, hduas]
  simp only [hw1, hw2, if_neg, ite_false, if_false]
  simp [hw1, hw2]
  rw [storeGet_storeSet_ne _ _ _ _ hne, storeGet_storeSet_self, storeGet_storeSet_self]
  exact ⟨rfl, rfl⟩

/-- C4: a successful network fetch (with a functioning store) always
persists the new bundle into the cache before anything fresh is surfaced —
on the automatic path under the `_cache` keys, on the retry path under the
non-suffixed keys, where the surfaced state is exactly the persisted
bundle — so the cache holds the data of the last successful fetch. -/
theorem C4_success_overwrites_cache :
    (∀ (id : String) (env : Env) (st : ScreenState) (store : Store)
       (b1 b2 : JsonVal) (r : Option (JsonVal × JsonVal)),
      id ≠ "" →
      readCache id env store = Except.ok r →
      env.isConnected = true →
      env.subFetch = FetchResult.success b1 →
      env.duasFetch = FetchResult.success b2 →
      subKey id ∉ env.setFails → duasKey id ∉ env.setFails →
      storeGet (fetchData id env st store).2.1 (subKey id) = some (serialize b1) ∧
      storeGet (fetchData id env st store).2.1 (duasKey id) = some (serialize b2)) ∧
    (∀ (id : String) (env : Env) (st : ScreenState) (store : Store) (b1 b2 : JsonVal),
      env.subFetch = FetchResult.success b1 →
      env.duasFetch = FetchResult.success b2 →
      retrySubKey id ∉ env.setFails → retryDuasKey id ∉ env.setFails →
      storeGet (retryLoad id env st store).2 (retrySubKey id) = some (serialize b1) ∧
      storeGet (retryLoad id env st store).2 (retryDuasKey id) = some (serialize b2) ∧
      (retryLoad id env st store).1.subcategory = some b1 ∧
      (retryLoad id env st store).1.subcategoryDuas = some b2) :=
  ⟨fun id env st store b1 b2 r hid hrc hconn hsub hduas hw1 hw2 =>
    fetchData_success_persists id env st store b1 b2 r hid hrc hconn hsub hduas hw1 hw2,
   fun id env st store b1 b2 hsub hduas hw1 hw2 =>
    ⟨(retryLoad_success id env st store b1 b2 hsub hduas hw1 hw2).1,
     (retryLoad_success id env st store b1 b2 hsub hduas hw1 hw2).2.1,
     (retryLoad_success id env st store b1 b2 hsub hduas hw1 hw2).2.2.1,
     (retryLoad_success id env st store b1 b2 hsub hduas hw1 hw2).2.2.2.1⟩⟩

/-- Witness for C4: the automatic path on the sample hit store (network
serving a different bundle overwrites it), and the retry path on the empty
store. -/
theorem C4_witness :
    (storeGet (fetchData "x" onlineEnv initState hitStore).2.1 (subKey "x") =
       some (serialize freshSub) ∧
     storeGet (fetchData "x" onlineEnv initState hitStore).2.1 (duasKey "x") =
       some (serialize freshDuas)) ∧
    (storeGet (retryLoad "x" onlineEnv initState []).2 (retrySubKey "x") =
       some (serialize freshSub) ∧
     storeGet (retryLoad "x" onlineEnv initState []).2 (retryDuasKey "x") =
       some (serialize freshDuas) ∧
     (retryLoad "x" onlineEnv initState []).1.subcategory = some freshSub ∧
     (retryLoad "x" onlineEnv initState []).1.subcategoryDuas = some freshDuas) :=
  ⟨C4_success_overwrites_cache.1 "x" onlineEnv initState hitStore freshSub freshDuas
     (some (sampleSub, sampleDuas)) (by decide) rfl rfl rfl rfl (by decide) (by decide),
   C4_success_overwrites_cache.2 "x" onlineEnv initState [] freshSub freshDuas
     rfl rfl (by decide) (by decide)⟩

/-- Helper: the retry handler's catch block never writes to the store. -/
theorem retryCatch_store (id : String) (env : Env) (st : ScreenState) (store : Store) :
    (retryCatch id env st store).2 = store := by
  unfold retryCatch
  split_ifs <;> try rfl
  split <;> try rfl
  split <;> try rfl
  split <;> rfl

/-- C5: if the fetch attempt fails at either the metadata or the items
stage (throw or non-ok status), no cache write occurs: both the automatic
load and the retry handler leave the store exactly as it was, so any old
entry remains readable with its previous content. -/
theorem C5_failed_fetch_keeps_store (id : String) (env : Env) (st : ScreenState)
    (store : Store)
    (h : ¬(fetchOk env.subFetch ∧ fetchOk env.duasFetch)) :
    (fetchData id env st store).2.1 = store ∧ (retryLoad id env st store).2 = store := by
  constructor
  · unfold fetchData
    split
    case isTrue => rfl
    case isFalse =>
      cases hrc : readCache id env store with
      | error e => rfl
      | ok o =>
        rcases o with _ | ⟨d1, d2⟩ <;> cases hconn : env.isConnected <;>
          simp [networkAttempt_failed _ _ _ _ _ h]
  · unfold retryLoad
    cases hs : env.subFetch
    case netError => exact retryCatch_store ..
    case badStatus => exact retryCatch_store ..
    case success b1 =>
      cases hd : env.duasFetch
      case netError => exact retryCatch_store ..
      case badStatus => exact retryCatch_store ..
      case success b2 =>
        exact absurd ⟨by simp [fetchOk, hs], by simp [fetchOk, hd]⟩ h

/-- Witness for C5: metadata fetch succeeds, items fetch has a bad status;
the hit store is untouched by both entry points. -/
theorem C5_witness :
    (fetchData "x" itemsFailEnv initState hitStore).2.1 = hitStore ∧
    (retryLoad "x" itemsFailEnv initState hitStore).2 = hitStore :=
  C5_failed_fetch_keeps_store "x" itemsFailEnv initState hitStore (by decide)

/-- Helper: if either `_cache` entry is absent (and neither read throws),
the cache-read phase is a plain miss. -/
theorem readCache_miss_either (id : String) (env : Env) (store : Store)
    (hg1 : subKey id ∉ env.getFails) (hg2 : duasKey id ∉ env.getFails)
    (hm : storeGet store (subKey id) = none ∨ storeGet store (duasKey id) = none) :
    readCache id env store = Except.ok none := by
  unfold readCache
  rw [if_neg hg1, if_neg hg2]
  rcases hm with hm | hm
  · rw [hm]
  · rw [hm]
    cases storeGet store (subKey id) <;> rfl

/-- Helper: a throwing cache-read phase (storage read failure, or a
malformed entry when both are present) lands in the outer catch: the
outer-catch error is set, no network fetch happens and the store is
untouched. -/
theorem fetchData_readError (id : String) (env : Env) (st : ScreenState)
    (store : Store)
    (hid : id ≠ "")
    (hrc : readCache id env store = Except.error ()) :
    (fetchData id env st store).1.error = some failMsg ∧
    (fetchData id env st store).2.1 = store ∧
    (fetchData id env st store).2.2 = LoadOutcome.Unavailable failMsg := by
  unfold fetchData
  rw [if_neg hid, hrc]
  simp

/-- C6 (amended): an absent entry (either or both `_cache` keys missing) is
indeed treated as a cache miss, and the load then proceeds to the
connectivity check and network fetch (offline it surfaces the offline
message, online with a successful fetch it surfaces `Fresh`); but a cache
read that throws — a storage read failure or a malformed entry when both
are present — does NOT fall through: it aborts the load through the outer
catch with the error `failMsg` and no network fetch takes place (the store
is untouched even when the network would have succeeded). -/
theorem C6_bad_cache_read (id : String) (env : Env) (st : ScreenState)
    (store : Store) :
    (∀ hg1 : subKey id ∉ env.getFails, ∀ hg2 : duasKey id ∉ env.getFails,
      (storeGet store (subKey id) = none ∨ storeGet store (duasKey id) = none) →
      readCache id env store = Except.ok none) ∧
    (id ≠ "" → readCache id env store = Except.ok none → env.isConnected = false →
      (fetchData id env st store).2.2 = LoadOutcome.Unavailable offlineMsg) ∧
    (∀ b1 b2 : JsonVal,
      id ≠ "" → readCache id env store = Except.ok none → env.isConnected = true →
      env.subFetch = FetchResult.success b1 → env.duasFetch = FetchResult.success b2 →
      subKey id ∉ env.setFails → duasKey id ∉ env.setFails →
      (fetchData id env st store).2.2 = LoadOutcome.Fresh b1 b2) ∧
    (id ≠ "" → readCache id env store = Except.error () →
      (fetchData id env st store).1.error = some failMsg ∧
      (fetchData id env st store).2.1 = store) :=
  ⟨fun hg1 hg2 hm => readCache_miss_either id env store hg1 hg2 hm,
   fun hid hrc hconn => (fetchData_offline_miss id env st store hid hrc hconn).1,
   fun b1 b2 hid hrc hconn hsub hduas hw1 hw2 =>
    (fetchData_miss_success id env st store b1 b2 hid hrc hconn hsub hduas hw1 hw2).1,
   fun hid hrc =>
    ⟨(fetchData_readError id env st store hid hrc).1,
     (fetchData_readError id env st store hid hrc).2.1⟩⟩

/-- Witness for C6 (amended): key `"x"`, store holding only the duas entry
(subcategory entry absent) reads as a miss; and on the malformed store the
load ends with the outer-catch error, store untouched. -/
theorem C6_witness :
    readCache "x" onlineEnv [(duasKey "x", serialize sampleDuas)] = Except.ok none ∧
    (fetchData "x" onlineEnv initState badStore).1.error = some failMsg ∧
    (fetchData "x" onlineEnv initState badStore).2.1 = badStore :=
  ⟨(C6_bad_cache_read "x" onlineEnv initState [(duasKey "x", serialize sampleDuas)]).1
      (by decide) (by decide) (Or.inl (by decide)),
   (C6_bad_cache_read "x" onlineEnv initState badStore).2.2.2 (by decide) rfl⟩

/-- Counterexample for C6 as stated: for key `"x"` with both `_cache`
entries present but malformed, the device reachable and both fetches able
to succeed, the load does not treat the bad read as a miss: it surfaces an
error of its own (`failMsg`) and never performs the network fetch (the
store still holds the malformed entries instead of the fetched bundle). -/
theorem C6_counterexample :
    (fetchData "x" onlineEnv initState badStore).1.error = some failMsg ∧
    (fetchData "x" onlineEnv initState badStore).2.1 = badStore ∧
    storeGet (fetchData "x" onlineEnv initState badStore).2.1 (subKey "x") ≠
      some (serialize freshSub) :=
  ⟨rfl, rfl, by decide⟩

/-- Helper: with both fetches successful but a failing `setItem` (on either
`_cache` key), the inner network block leaves the state untouched and
surfaces nothing — the throw lands in the silent inner catch after the
`setItem` calls but before the `setState` calls. -/
theorem networkAttempt_writeFail (id : String) (env : Env) (fromCache : Bool)
    (st : ScreenState) (store : Store) (b1 b2 : JsonVal)
    (hsub : env.subFetch = FetchResult.success b1)
    (hduas : env.duasFetch = FetchResult.success b2)
    (hw : subKey id ∈ env.setFails ∨ duasKey id ∈ env.setFails) :
    (networkAttempt id env fromCache st store).1 = st ∧
    (networkAttempt id env fromCache st store).2.2 = none := by
  unfold networkAttempt
  rw [hsub, hduas]
  rcases hw with hw | hw
  · simp [hw]
  · by_cases hw1 : subKey id ∈ env.setFails
    · simp [hw1]
    · simp [hw1, hw]

/-- Helper: cache miss, connected, both fetches succeed, but a write fails:
the load completes with no error and no data — the fresh bundle is not
surfaced. -/
theorem fetchData_miss_writeFail (id : String) (env : Env) (st : ScreenState)
    (store : Store) (b1 b2 : JsonVal)
    (hid : id ≠ "")
    (hrc : readCache id env store = Except.ok none)
    (hconn : env.isConnected = true)
    (hsub : env.subFetch = FetchResult.success b1)
    (hduas : env.duasFetch = FetchResult.success b2)
    (hw : subKey id ∈ env.setFails ∨ duasKey id ∈ env.setFails) :
    (fetchData id env st store).2.2 = LoadOutcome.NoData ∧
    (fetchData id env st store).1.error = none ∧
    (fetchData id env st store).1.subcategory = st.subcategory ∧
    (fetchData id env st store).1.subcategoryDuas = st.subcategoryDuas := by
  have hna := networkAttempt_writeFail id env false
    { st with loading := true, error := none } store b1 b2 hsub hduas hw
  unfold fetchData
  rw [if_neg hid, hrc]
  simp only [hconn, if_true, hna.1, hna.2]
  simp

/-- C7 (amended): a durable-store write failure after two successful
fetches never aborts the load and never sets an error; on a cache hit the
outcome is the same as with a successful write (`Cached` with the stored
bundle); but on a cache miss the outcome is NOT the same as with a
successful write: the fresh bundle is not surfaced (`NoData`, state cells
unchanged) instead of `Fresh`. -/
theorem C7_write_failure_drops_fresh :
    (∀ (id : String) (env : Env) (st : ScreenState) (store : Store)
       (raw1 raw2 : StoredVal) (d1 d2 : JsonVal),
      id ≠ "" →
      subKey id ∉ env.getFails → duasKey id ∉ env.getFails →
      storeGet store (subKey id) = some raw1 → storeGet store (duasKey id) = some raw2 →
      parseStored raw1 = some d1 → parseStored raw2 = some d2 →
      (subKey id ∈ env.setFails ∨ duasKey id ∈ env.setFails) →
      (fetchData id env st store).2.2 = LoadOutcome.Cached d1 d2 ∧
      (fetchData id env st store).1.error = none) ∧
    (∀ (id : String) (env : Env) (st : ScreenState) (store : Store) (b1 b2 : JsonVal),
      id ≠ "" →
      readCache id env store = Except.ok none →
      env.isConnected = true →
      env.subFetch = FetchResult.success b1 → env.duasFetch = FetchResult.success b2 →
      (subKey id ∈ env.setFails ∨ duasKey id ∈ env.setFails) →
      (fetchData id env st store).2.2 = LoadOutcome.NoData ∧
      (fetchData id env st store).1.error = none ∧
      (fetchData id env st store).1.subcategory = st.subcategory ∧
      (fetchData id env st store).1.subcategoryDuas = st.subcategoryDuas) :=
  ⟨fun id env st store raw1 raw2 d1 d2 hid hg1 hg2 hs1 hs2 hp1 hp2 _ =>
    ⟨(fetchData_cacheHit id env st store raw1 raw2 d1 d2 hid hg1 hg2 hs1 hs2 hp1 hp2).1,
     (fetchData_cacheHit id env st store raw1 raw2 d1 d2 hid hg1 hg2 hs1 hs2 hp1 hp2).2.2.2⟩,
   fun id env st store b1 b2 hid hrc hconn hsub hduas hw =>
    fetchData_miss_writeFail id env st store b1 b2 hid hrc hconn hsub hduas hw⟩

/-- Witness for C7 (amended): hit path still `Cached`, miss path silent. -/
theorem C7_witness :
    ((fetchData "x" writeFailEnv initState hitStore).2.2 =
       LoadOutcome.Cached sampleSub sampleDuas ∧
     (fetchData "x" writeFailEnv initState hitStore).1.error = none) ∧
    ((fetchData "x" writeFailEnv initState []).2.2 = LoadOutcome.NoData ∧
     (fetchData "x" writeFailEnv initState []).1.error = none ∧
     (fetchData "x" writeFailEnv initState []).1.subcategory = initState.subcategory ∧
     (fetchData "x" writeFailEnv initState []).1.subcategoryDuas =
       initState.subcategoryDuas) :=
  ⟨C7_write_failure_drops_fresh.1 "x" writeFailEnv initState hitStore
     (serialize sampleSub) (serialize sampleDuas) sampleSub sampleDuas
     (by decide) (by decide) (by decide) (by decide) (by decide) rfl rfl
     (Or.inl (by decide)),
   C7_write_failure_drops_fresh.2 "x" writeFailEnv initState [] freshSub freshDuas
     (by decide) rfl rfl rfl rfl (Or.inl (by decide))⟩

/-- Counterexample for C7 as stated: on a cache miss with both fetches
succeeding, a failing write changes the delivered outcome — with the write
succeeding the load surfaces `Fresh`, with it failing the load surfaces
nothing (`NoData`, no data set, yet no error either). -/
theorem C7_counterexample :
    (fetchData "x" onlineEnv initState []).2.2 = LoadOutcome.Fresh freshSub freshDuas ∧
    (fetchData "x" writeFailEnv initState []).2.2 = LoadOutcome.NoData ∧
    (fetchData "x" writeFailEnv initState []).2.2 ≠
      (fetchData "x" onlineEnv initState []).2.2 ∧
    (fetchData "x" writeFailEnv initState []).1.subcategory = none ∧
    (fetchData "x" writeFailEnv initState []).1.error = none :=
  ⟨rfl, rfl, by decide, rfl, rfl⟩

/-- Helper: the automatic load only ever writes the two `_cache` keys of
its id; every other key reads back unchanged. -/
theorem fetchData_store_frame (id : String) (env : Env) (st : ScreenState)
    (store : Store) (k : String)
    (h1 : k ≠ subKey id) (h2 : k ≠ duasKey id) :
    storeGet (fetchData id env st store).2.1 k = storeGet store k := by
  unfold fetchData
  split
  case isTrue => rfl
  case isFalse =>
    cases hrc : readCache id env store with
    | error e => rfl
    | ok o =>
      rcases o with _ | ⟨d1, d2⟩ <;> cases hconn : env.isConnected <;>
        simp [networkAttempt_frame, h1, h2]

/-- Helper: the retry handler only ever writes the two non-suffixed keys of
its id; every other key reads back unchanged. -/
theorem retryLoad_store_frame (id : String) (env : Env) (st : ScreenState)
    (store : Store) (k : String)
    (h1 : k ≠ retrySubKey id) (h2 : k ≠ retryDuasKey id) :
    storeGet (retryLoad id env st store).2 k = storeGet store k := by
  unfold retryLoad
  cases env.subFetch <;> try simp [retryCatch_store]
  cases env.duasFetch <;> try simp [retryCatch_store]
  split_ifs <;>
    simp [retryCatch_store, storeGet_storeSet_ne _ _ _ _ (Ne.symm h1),
          storeGet_storeSet_ne _ _ _ _ (Ne.symm h2)]

/-- C8: the retry handler and the automatic load use disjoint key
namespaces for the same id (non-suffixed versus `_cache`-suffixed), so no
automatic load ever changes what retry's cache fallback reads under the
retry keys, and no retry ever changes what the automatic load reads under
the `_cache` keys. -/
theorem C8_disjoint_key_namespaces (id : String) :
    subKey id ≠ retrySubKey id ∧ duasKey id ≠ retryDuasKey id ∧
    (∀ (env : Env) (st : ScreenState) (store : Store),
      storeGet (fetchData id env st store).2.1 (retrySubKey id) =
        storeGet store (retrySubKey id) ∧
      storeGet (fetchData id env st store).2.1 (retryDuasKey id) =
        storeGet store (retryDuasKey id) ∧
      storeGet (retryLoad id env st store).2 (subKey id) = storeGet store (subKey id) ∧
      storeGet (retryLoad id env st store).2 (duasKey id) = storeGet store (duasKey id)) := by
  obtain ⟨h12, h13, h14, h23, h24, h34⟩ := keys_pairwise_ne id
  refine ⟨h13, h24, fun env st store => ⟨?_, ?_, ?_, ?_⟩⟩
  · exact fetchData_store_frame id env st store _ (Ne.symm h13) (Ne.symm h23)
  · exact fetchData_store_frame id env st store _ (Ne.symm h14) (Ne.symm h24)
  · exact retryLoad_store_frame id env st store _ h13 h14
  · exact retryLoad_store_frame id env st store _ h23 h24

/-- C9: two consecutive automatic loads whose fetches succeed with the same
remote data (and a functioning store) persist byte-identical serialized
bundles: after the first load both `_cache` entries hold the serialized
fetched bundle, and the second load leaves both entries identical. -/
theorem C9_idempotent_cache_writes (id : String) (env : Env) (st1 st2 : ScreenState)
    (store : Store) (b1 b2 : JsonVal) (r : Option (JsonVal × JsonVal))
    (hid : id ≠ "")
    (hg1 : subKey id ∉ env.getFails) (hg2 : duasKey id ∉ env.getFails)
    (hrc : readCache id env store = Except.ok r)
    (hconn : env.isConnected = true)
    (hsub : env.subFetch = FetchResult.success b1)
    (hduas : env.duasFetch = FetchResult.success b2)
    (hw1 : subKey id ∉ env.setFails) (hw2 : duasKey id ∉ env.setFails) :
    storeGet (fetchData id env st1 store).2.1 (subKey id) = some (serialize b1) ∧
    storeGet (fetchData id env st1 store).2.1 (duasKey id) = some (serialize b2) ∧
    storeGet (fetchData id env st2 (fetchData id env st1 store).2.1).2.1 (subKey id) =
      storeGet (fetchData id env st1 store).2.1 (subKey id) ∧
    storeGet (fetchData id env st2 (fetchData id env st1 store).2.1).2.1 (duasKey id) =
      storeGet (fetchData id env st1 store).2.1 (duasKey id) := by
  obtain ⟨ha, hb⟩ :=
    fetchData_success_persists id env st1 store b1 b2 r hid hrc hconn hsub hduas hw1 hw2
  have hrc2 : readCache id env (fetchData id env st1 store).2.1 =
      Except.ok (some (b1, b2)) :=
    readCache_hit id env _ (serialize b1) (serialize b2) b1 b2 hg1 hg2 ha hb rfl rfl
  obtain ⟨hc, hd⟩ :=
    fetchData_success_persists id env st2 (fetchData id env st1 store).2.1 b1 b2
      (some (b1, b2)) hid hrc2 hconn hsub hduas hw1 hw2
  exact ⟨ha, hb, by rw [hc, ha], by rw [hd, hb]⟩

/-- Witness for C9: two loads of key `"x"` against the empty store with the
online environment. -/
theorem C9_witness :
    storeGet (fetchData "x" onlineEnv initState []).2.1 (subKey "x") =
      some (serialize freshSub) ∧
    storeGet (fetchData "x" onlineEnv initState []).2.1 (duasKey "x") =
      some (serialize freshDuas) ∧
    storeGet (fetchData "x" onlineEnv initState
        (fetchData "x" onlineEnv initState []).2.1).2.1 (subKey "x") =
      storeGet (fetchData "x" onlineEnv initState []).2.1 (subKey "x") ∧
    storeGet (fetchData "x" onlineEnv initState
        (fetchData "x" onlineEnv initState []).2.1).2.1 (duasKey "x") =
      storeGet (fetchData "x" onlineEnv initState []).2.1 (duasKey "x") :=
  C9_idempotent_cache_writes "x" onlineEnv initState initState [] freshSub freshDuas
    none (by decide) (by decide) (by decide) rfl rfl rfl rfl (by decide) (by decide)

/-- C10: on a cache miss with the device reachable, if the fetch fails at
either stage (throw, non-ok status or unparseable body), the automatic load
completes silently: no error message is set, the data cells keep their
initial values (the item list stays empty), and the surfaced outcome is
neither `Fresh`, nor `Cached`, nor `Unavailable`. -/
theorem C10_online_fetch_failure_silent (id : String) (env : Env) (st : ScreenState)
    (store : Store)
    (hid : id ≠ "")
    (hrc : readCache id env store = Except.ok none)
    (hconn : env.isConnected = true)
    (hfail : ¬(fetchOk env.subFetch ∧ fetchOk env.duasFetch)) :
    (fetchData id env st store).1.error = none ∧
    (fetchData id env st store).1.subcategory = st.subcategory ∧
    (fetchData id env st store).1.subcategoryDuas = st.subcategoryDuas ∧
    (fetchData id env st store).2.2 = LoadOutcome.NoData := by
  have hna := networkAttempt_failed id env false
    { st with loading := true, error := none } store hfail
  unfold fetchData
  rw [if_neg hid, hrc]
  simp only [hconn, if_true, hna]
  simp

/-- Witness for C10: key `"x"`, empty store, reachable, metadata fetch ok
but items fetch with a bad status: the load ends silently from the mount
state. -/
theorem C10_witness :
    (fetchData "x" itemsFailEnv initState []).1.error = none ∧
    (fetchData "x" itemsFailEnv initState []).1.subcategory = initState.subcategory ∧
    (fetchData "x" itemsFailEnv initState []).1.subcategoryDuas =
      initState.subcategoryDuas ∧
    (fetchData "x" itemsFailEnv initState []).2.2 = LoadOutcome.NoData :=
  C10_online_fetch_failure_silent "x" itemsFailEnv initState []
    (by decide) rfl rfl (by decide)

end DuaonAI
